import Mathlib

/-!
Verification of the opengl_lens_flare optical-simulation core.

The development shallowly embeds, over the rationals, the parts of the
repository that the checked properties are about:

* `lensInterfacesOf` — the lens-stack builder
  (`LensFlareRenderer::initializeLensSystem`, opengl_lens_flare.cpp lines
  236-257), together with the concrete Nikon 28-75mm prescription table;
* `ghostList` — the two-bounce ghost enumerator (same function, lines
  260-272);
* `intersectSphere`, `intersectPlane`, `fresnelQ` — the geometry and
  shading kernels of the lens-flare compute shader
  (shaders/lens_flare.glsl lines 131-164);
* `traceLoop` / `phase1` / `phase2` / `mainCompute` — the compute
  shader's `main` (lines 166-256);
* `ghostVertexShader` — the ghost render vertex shader that maps the
  traced vertex grid back to triangle geometry.

GLSL floats are modelled as rationals; `sqrt` is modelled by `ratSqrt`,
which is exact on perfect squares (every concrete evaluation below only
takes square roots of perfect squares).  Division is total on `ℚ`
(`x / 0 = 0`); where a claim is specifically about division by zero the
checked variant `fresnelChecked` makes the zero-denominator case
explicit as `none`, mirroring that the IEEE evaluation is non-finite
there.  The `Bool` paired with the result of `traceLoop` is a pure
observer recording whether the loop exited through its miss `break`;
the ray state itself carries exactly the shader's variables.
-/

/-- 2-component rational vector (GLSL `vec2`). -/
structure Vec2 where
  x : ℚ
  y : ℚ
deriving DecidableEq

/-- 3-component rational vector (GLSL `vec3`). -/
structure Vec3 where
  x : ℚ
  y : ℚ
  z : ℚ
deriving DecidableEq

/-- 4-component rational vector (GLSL `vec4`). -/
structure Vec4 where
  x : ℚ
  y : ℚ
  z : ℚ
  w : ℚ
deriving DecidableEq

def addV (a b : Vec3) : Vec3 := ⟨a.x + b.x, a.y + b.y, a.z + b.z⟩

def subV (a b : Vec3) : Vec3 := ⟨a.x - b.x, a.y - b.y, a.z - b.z⟩

def smulV (t : ℚ) (v : Vec3) : Vec3 := ⟨t * v.x, t * v.y, t * v.z⟩

def dotV (a b : Vec3) : ℚ := a.x * b.x + a.y * b.y + a.z * b.z

/-- Rational model of `sqrt`: exact on rationals that are squares (the
only inputs concrete evaluations below reach). -/
def ratSqrt (q : ℚ) : ℚ := (Nat.sqrt q.num.toNat : ℚ) / (Nat.sqrt q.den : ℚ)

/-- GLSL `normalize(v) = v / length(v)`. -/
def normalizeV (v : Vec3) : Vec3 := smulV (1 / ratSqrt (dotV v v)) v

/-- GLSL `reflect(I, N) = I - 2 * dot(N, I) * N`. -/
def reflectV (i n : Vec3) : Vec3 := subV i (smulV (2 * dotV n i) n)

def negV (v : Vec3) : Vec3 := ⟨-v.x, -v.y, -v.z⟩

/-- Ray-sphere intersection, from `intersectSphere` in
shaders/lens_flare.glsl lines 131-146.  `some t` stands for the
source's `return true` with output parameter `t`; `none` for
`return false` (where the caller never reads `t`). -/
def intersectSphere (rayOrigin rayDir sphereCenter : Vec3) (sphereRadius : ℚ) : Option ℚ :=
  let oc := subV rayOrigin sphereCenter
  let a := dotV rayDir rayDir
  let b := 2 * dotV oc rayDir
  let c := dotV oc oc - sphereRadius * sphereRadius
  let discriminant := b * b - 4 * a * c
  if discriminant < 0 then none
  else
    let sq := ratSqrt discriminant
    let t1 := (-b - sq) / (2 * a)
    let t2 := (-b + sq) / (2 * a)
    let t := if t1 > 0 then t1 else t2
    if t > 0 then some t else none

/-- Ray-plane intersection, from `intersectPlane` in
shaders/lens_flare.glsl lines 148-156. -/
def intersectPlane (rayOrigin rayDir planeCenter planeNormal : Vec3) : Option ℚ :=
  let denom := dotV planeNormal rayDir
  if |denom| < 1 / 1000000 then none
  else
    let t := dotV (subV planeCenter rayOrigin) planeNormal / denom
    if t ≥ 0 then some t else none

/-- Schlick Fresnel reflectance, from `fresnel` in
shaders/lens_flare.glsl lines 159-164, with total rational division. -/
def fresnelQ (cosTheta n1 n2 : ℚ) : ℚ :=
  let r0 := (n1 - n2) / (n1 + n2)
  let r0sq := r0 * r0
  let cosX := 1 - cosTheta
  r0sq + (1 - r0sq) * cosX ^ 5

/-- Division that records a zero denominator as `none` (IEEE float
division by zero is non-finite, unlike total division on `ℚ`). -/
def divQZ (a b : ℚ) : Option ℚ := if b = 0 then none else some (a / b)

/-- `fresnel` with the single division made explicit: `none` exactly
when the source expression `(n1 - n2) / (n1 + n2)` divides by zero. -/
def fresnelChecked (cosTheta n1 n2 : ℚ) : Option ℚ :=
  (divQZ (n1 - n2) (n1 + n2)).map fun r0 =>
    let r0sq := r0 * r0
    let cosX := 1 - cosTheta
    r0sq + (1 - r0sq) * cosX ^ 5

/-- One row of the raw lens prescription (`PatentFormat`,
opengl_lens_flare.cpp lines 64-72). -/
structure PatentFormat where
  r : ℚ
  d : ℚ
  n : ℚ
  f : Bool
  w : ℚ
  h : ℚ
  c : ℚ
deriving DecidableEq

/-- One optical interface (`LensInterface`, opengl_lens_flare.cpp lines
74-83 / shaders/lens_flare.glsl lines 98-107). -/
structure LensInterface where
  center : Vec3
  radius : ℚ
  n : Vec3
  sa : ℚ
  d1 : ℚ
  is_flat : ℚ
  pos : ℚ
  w : ℚ
deriving DecidableEq

def pfDefault : PatentFormat := ⟨0, 0, 0, false, 0, 0, 0⟩

def ifaceDefault : LensInterface := ⟨⟨0, 0, 0⟩, 0, ⟨0, 0, 0⟩, 0, 0, 0, 0, 0⟩

/-- One ghost descriptor (`GhostData`, opengl_lens_flare.cpp lines
85-90; the two float fields hold exact small integers, modelled as
naturals). -/
structure GhostData where
  bounce1 : Nat
  bounce2 : Nat
deriving DecidableEq

/-- The Nikon 28-75mm prescription table from
`LensFlareRenderer::initializeLensSystem` (opengl_lens_flare.cpp lines
203-233), float literals read as exact decimals. -/
def nikonLens : List PatentFormat := [
  ⟨72747/1000, 23/10, 1603/1000, false, 2/10, 29, 530⟩,
  ⟨37, 13, 1, false, 2/10, 29, 600⟩,
  ⟨-172809/1000, 21/10, 158913/100000, false, 27/10, 262/10, 570⟩,
  ⟨39894/1000, 1, 1, false, 27/10, 262/10, 660⟩,
  ⟨4982/100, 44/10, 186074/100000, false, 5/10, 20, 330⟩,
  ⟨7475/100, 53142/1000, 1, false, 5/10, 20, 544⟩,
  ⟨63402/1000, 16/10, 186074/100000, false, 5/10, 161/10, 740⟩,
  ⟨3753/100, 86/10, 15168/10000, false, 5/10, 161/10, 411⟩,
  ⟨-75887/1000, 16/10, 180458/100000, false, 5/10, 16, 580⟩,
  ⟨-97792/1000, 7063/1000, 1, false, 5/10, 165/10, 730⟩,
  ⟨96034/1000, 36/10, 162041/100000, false, 5/10, 18, 700⟩,
  ⟨261743/1000, 1/10, 1, false, 5/10, 18, 440⟩,
  ⟨54262/1000, 6, 16968/10000, false, 5/10, 18, 800⟩,
  ⟨-5995277/1000, 1532/1000, 1, false, 5/10, 18, 300⟩,
  ⟨0, 28/10, 1, true, 18, 7, 440⟩,
  ⟨-74414/1000, 22/10, 190265/100000, false, 5/10, 13, 500⟩,
  ⟨-62929/1000, 145/100, 15168/10000, false, 1/10, 13, 770⟩,
  ⟨12138/100, 25/10, 1, false, 4, 131/10, 820⟩,
  ⟨-85723/1000, 14/10, 149782/100000, false, 4, 13, 200⟩,
  ⟨31093/1000, 26/10, 180458/100000, false, 4, 131/10, 540⟩,
  ⟨84758/1000, 16889/1000, 1, false, 5/10, 13, 580⟩,
  ⟨45969/100, 14/10, 186074/100000, false, 1, 15, 533⟩,
  ⟨4024/100, 73/10, 149782/100000, false, 1, 15, 666⟩,
  ⟨-49771/1000, 1/10, 1, false, 1, 152/10, 500⟩,
  ⟨62369/1000, 7, 167025/100000, false, 1, 16, 487⟩,
  ⟨-76454/1000, 52/10, 1, false, 1, 16, 671⟩,
  ⟨-32524/1000, 2, 180454/100000, false, 5/10, 17, 487⟩,
  ⟨-50194/1000, 39683/1000, 1, false, 5/10, 17, 732⟩,
  ⟨0, 5, 1, true, 10, 10, 500⟩]

/-- One step of the interface-array construction: prescription entry
`i` is appended with accumulated axial distance, exactly as in the
reverse loop body of `initializeLensSystem` (opengl_lens_flare.cpp
lines 239-256). -/
def buildStep (pres : List PatentFormat) (acc : ℚ × List LensInterface) (i : Nat) :
    ℚ × List LensInterface :=
  let entry := pres.getD i pfDefault
  let total := acc.1 + entry.d
  let left := if i = 0 then 1 else (pres.getD (i - 1) pfDefault).n
  (total, acc.2 ++ [⟨⟨0, 0, total - entry.r⟩, entry.r, ⟨left, 1, entry.n⟩,
    entry.h, entry.c, if entry.f then 1 else 0, total, entry.w⟩])

/-- The built interface array: the prescription is walked in reverse
(index `pres.length - 1` down to `0`), matching
`for (int i = nikon_lens.size() - 1; i >= 0; --i)` in
opengl_lens_flare.cpp lines 239-257. -/
def lensInterfacesOf (pres : List PatentFormat) : List LensInterface :=
  ((List.range pres.length).reverse.foldl (buildStep pres) (0, [])).2

def nikonInterfaces : List LensInterface := lensInterfacesOf nikonLens

/-- The ghost enumerator of `initializeLensSystem`
(opengl_lens_flare.cpp lines 260-270):
`for (bounce2 = 1; bounce2 < n-1; ++bounce2)
   for (bounce1 = bounce2+2; bounce1 < n-1; ++bounce1)`
where `n` is the interface count.  `List.range' s len` is the list
`[s, s+1, ..., s+len-1]`, so the outer list is the `bounce2` range and
the inner one the `bounce1` range. -/
def ghostList (n : Nat) : List GhostData :=
  (List.range' 1 (n - 1 - 1)).flatMap fun b2 =>
    (List.range' (b2 + 2) (n - 1 - (b2 + 2))).map fun b1 => ⟨b1, b2⟩

/-- The ghost count the claim states (spec §4.2/§8):
`Σ_{b2=1}^{N-3} max(0, (N-2)-(b2+2))`; natural subtraction supplies
the `max 0`. -/
def claimGhostCount (n : Nat) : Nat :=
  ∑ b2 in Finset.Icc 1 (n - 3), ((n - 2) - (b2 + 2))

/-- The count the enumerator actually produces:
`Σ_{b2=1}^{N-2} max(0, (N-1)-(b2+2))`. -/
def actualGhostCount (n : Nat) : Nat :=
  ∑ b2 in Finset.Ico 1 (n - 1), ((n - 1) - (b2 + 2))

/-- Emission order of the enumerator: `bounce2` ascending in the outer
loop, `bounce1` ascending in the inner loop. -/
def ghostBefore (g g' : GhostData) : Prop :=
  g.bounce2 < g'.bounce2 ∨ (g.bounce2 = g'.bounce2 ∧ g.bounce1 < g'.bounce1)

instance : DecidableRel ghostBefore := fun g g' => by
  unfold ghostBefore; infer_instance

/-- Mutable per-ray state of the compute shader's `main`
(`current_pos`, `current_dir`, `intensity`, lens_flare.glsl lines
189-191). -/
structure RayState where
  pos : Vec3
  dir : Vec3
  intensity : ℚ
deriving DecidableEq

/-- Branch on the flatness flag, from the loop bodies of `main`
(lens_flare.glsl lines 199-203 and 227-231): `is_flat > 0.5` selects
the plane test with the fixed normal `(0,0,1)`, otherwise the sphere
test. -/
def intersectIface (iface : LensInterface) (p d : Vec3) : Option ℚ :=
  if iface.is_flat > 1/2 then intersectPlane p d iface.center ⟨0, 0, 1⟩
  else intersectSphere p d iface.center iface.radius

/-- One of the two identical walk loops of `main` (lens_flare.glsl
lines 194-219 and 222-247).  `i` is the loop counter, `fuel` the
remaining iteration count (the C loop `for (i; i < stop; ++i)` with
`stop` folded into `fuel = stop - i`), `bounce` the ghost's bounce
index for this phase.  The source's reflection trigger `i == bounce-1`
on `uint` is written `i + 1 = bounce`, which agrees with it for every
reachable `i` (for `bounce = 0` the `uint` comparison is against
`2^32-1` and never fires; here the loop is empty anyway).  On a miss
the source sets `intensity = 0` and breaks; the returned `Bool`
records (as a pure observer) whether that break was taken. -/
def traceLoop (ifaces : List LensInterface) (bounce : Nat) :
    Nat → Nat → RayState → RayState × Bool
  | _, 0, st => (st, false)
  | i, fuel + 1, st =>
    match intersectIface (ifaces.getD i ifaceDefault) st.pos st.dir with
    | none => ({ st with intensity := 0 }, true)
    | some t =>
      let pos1 := addV st.pos (smulV t st.dir)
      if i + 1 = bounce then
        let iface := ifaces.getD i ifaceDefault
        let normal := normalizeV (subV pos1 iface.center)
        let dir1 := reflectV st.dir normal
        traceLoop ifaces bounce (i + 1) fuel
          ⟨pos1, dir1, st.intensity * fresnelQ |dotV dir1 normal| iface.n.x iface.n.z * (1/10)⟩
      else
        traceLoop ifaces bounce (i + 1) fuel ⟨pos1, st.dir, st.intensity⟩

/-- Phase 1 of `main` (lens_flare.glsl lines 194-219):
`for (i = 0; i < bounce1 && i < length; ++i)`. -/
def phase1 (ifaces : List LensInterface) (b1 : Nat) (st : RayState) : RayState × Bool :=
  traceLoop ifaces b1 0 (min b1 ifaces.length) st

/-- Phase 2 of `main` (lens_flare.glsl lines 222-247):
`for (i = bounce1; i < bounce2 && i < length; ++i)`. -/
def phase2 (ifaces : List LensInterface) (b1 b2 : Nat) (st : RayState) : RayState × Bool :=
  traceLoop ifaces b2 b1 (min b2 ifaces.length - b1) st

/-- Both walk phases composed; the `Bool` records whether either phase
broke out on a miss (a "dead ray"). -/
def traceGhost (ifaces : List LensInterface) (b1 b2 : Nat) (st : RayState) :
    RayState × Bool :=
  let r1 := phase1 ifaces b1 st
  let r2 := phase2 ifaces b1 b2 r1.1
  (r2.1, r1.2 || r2.2)

/-- Flat output index of the tracer (writer):
`ghost_id * 256 + local_y * 16 + local_x`, lens_flare.glsl line 253. -/
def writerVertexIdx (ghost_id local_y local_x : Nat) : Nat :=
  ghost_id * 256 + local_y * 16 + local_x

/-- The initial ray of a unit (lens_flare.glsl lines 185-187):
aperture coordinate `(lx,ly)/16` remapped to `[-1,1]²`, origin on the
`z = -100` plane scaled by 10, direction the normalized light
direction. -/
def rayStart (light : Vec3) (lx ly : Nat) : RayState :=
  let ax := ((lx : ℚ) / 16 - 1/2) * 2
  let ay := ((ly : ℚ) / 16 - 1/2) * 2
  ⟨⟨ax * 10, ay * 10, -100⟩, normalizeV light, 1⟩

/-- The compute shader `main` (lens_flare.glsl lines 166-256) as a
function of one invocation `(tx, ty) = gl_GlobalInvocationID.xy`.
`none` means the invocation returned or discarded without writing;
`some (i, v)` means it wrote `v` to buffer slot `i` (its single
write).  `bufLen` is `vertex_data.length()`. -/
def mainCompute (ifaces : List LensInterface) (ghosts : List GhostData)
    (bufLen : Nat) (light : Vec3) (backbuffer : Vec2) (tx ty : Nat) :
    Option (Nat × Vec4) :=
  let ghost_id := tx / 16
  if ghosts.length ≤ ghost_id then none
  else
    let local_x := tx % 16
    let local_y := ty
    if 16 ≤ local_x ∨ 16 ≤ local_y then none
    else
      let ghost := ghosts.getD ghost_id ⟨0, 0⟩
      if ifaces.length ≤ ghost.bounce1 ∨ ifaces.length ≤ ghost.bounce2 then none
      else
        let tr := traceGhost ifaces ghost.bounce1 ghost.bounce2 (rayStart light local_x local_y)
        let screenX := tr.1.pos.x / backbuffer.x * 2 - 1
        let screenY := tr.1.pos.y / backbuffer.y * 2 - 1
        let vertex_idx := writerVertexIdx ghost_id local_y local_x
        if vertex_idx < bufLen then some (vertex_idx, ⟨screenX, screenY, tr.1.intensity, 1⟩)
        else none

/-- `patch_tessellation` from opengl_lens_flare.cpp line 155; passed
to the ghost render vertex shader as its grid resolution uniform
(line 456). -/
def patch_tessellation : Nat := 32

/-- The fixed six-entry local-offset pattern of the ghost render
vertex shader (src/unnamed/part_002 lines 68-71). -/
def quadOffsets : List (Nat × Nat) :=
  [(0, 0), (1, 0), (0, 1), (1, 0), (1, 1), (0, 1)]

/-- Clamped local x of the grid cell a render vertex reads
(src/unnamed/part_002 lines 60-79). -/
def cellX (p vid : Nat) : Nat :=
  min (vid / 6 % (p - 1) + (quadOffsets.getD (vid % 6) (0, 0)).1) (p - 1)

/-- Clamped local y of the grid cell a render vertex reads
(src/unnamed/part_002 lines 60-79). -/
def cellY (p vid : Nat) : Nat :=
  min (vid / 6 / (p - 1) + (quadOffsets.getD (vid % 6) (0, 0)).2) (p - 1)

/-- Flat source index of the ghost geometry mapper (reader):
`ghost_id * p² + local_y * p + local_x`, src/unnamed/part_002 lines
57 and 81-82. -/
def readerVertexIdx (p ghost_id local_y local_x : Nat) : Nat :=
  ghost_id * (p * p) + (local_y * p + local_x)

/-- Outputs of the ghost render vertex shader: `gl_Position`,
`intensity`, `aperture_coord`. -/
structure GhostVSOut where
  position : Vec4
  intensity : ℚ
  aperture_coord : Vec2
deriving DecidableEq

/-- The ghost render vertex shader `main` (src/unnamed/part_002 lines
56-99) for one `gl_VertexID = vid`, ghost uniform `g` and tessellation
uniform `p`, reading the traced vertex buffer `vd`. -/
def ghostVertexShader (vd : List Vec4) (g p vid : Nat) : GhostVSOut :=
  let lx := cellX p vid
  let ly := cellY p vid
  let vertex_idx := readerVertexIdx p g ly lx
  if vd.length ≤ vertex_idx then ⟨⟨0, 0, -10, 1⟩, 0, ⟨0, 0⟩⟩
  else
    let v := vd.getD vertex_idx ⟨0, 0, 0, 0⟩
    ⟨⟨v.x, v.y, 0, 1⟩, v.z,
      ⟨((lx : ℚ) / ((p - 1 : Nat) : ℚ) - 1/2) * 2, ((ly : ℚ) / ((p - 1 : Nat) : ℚ) - 1/2) * 2⟩⟩

/-- A transmission-only walk: the same loop body as `traceLoop` with
the bounce branch removed; used to state where exactly the reflection
happens inside phase 1. -/
def transmitWalk (ifaces : List LensInterface) :
    Nat → Nat → RayState → RayState × Bool
  | _, 0, st => (st, false)
  | i, fuel + 1, st =>
    match intersectIface (ifaces.getD i ifaceDefault) st.pos st.dir with
    | none => ({ st with intensity := 0 }, true)
    | some t =>
      transmitWalk ifaces (i + 1) fuel ⟨addV st.pos (smulV t st.dir), st.dir, st.intensity⟩

/-- The bounce-iteration body of `traceLoop` in isolation: intersect
one interface and, on a hit, reflect about `normalize(hit - center)`
and attenuate by Schlick Fresnel times the 0.1 suppression constant
(lens_flare.glsl lines 199-218 with `i == bounce1_idx - 1`). -/
def reflectAt (iface : LensInterface) (st : RayState) : RayState × Bool :=
  match intersectIface iface st.pos st.dir with
  | none => ({ st with intensity := 0 }, true)
  | some t =>
    let pos1 := addV st.pos (smulV t st.dir)
    let normal := normalizeV (subV pos1 iface.center)
    let dir1 := reflectV st.dir normal
    (⟨pos1, dir1, st.intensity * fresnelQ |dotV dir1 normal| iface.n.x iface.n.z * (1/10)⟩,
      false)

/-- Phase 1 as the spec sentence behind claim C4 reads: transmit
through interfaces `0 .. b1-1`, then intersect interface `b1` itself
and reflect there, about a normal that is axis-aligned for flat
surfaces and points from the hit point to the center for spherical
ones.  Modelled from the spec (spec.md §4.3 step 3) purely as the
comparison point for that claim — it is *not* what the shader does. -/
def phase1SpecC4 (ifaces : List LensInterface) (b1 : Nat) (st : RayState) :
    RayState × Bool :=
  let w := transmitWalk ifaces 0 b1 st
  if w.2 then w
  else
    let iface := ifaces.getD b1 ifaceDefault
    match intersectIface iface w.1.pos w.1.dir with
    | none => ({ w.1 with intensity := 0 }, true)
    | some t =>
      let pos1 := addV w.1.pos (smulV t w.1.dir)
      let normal :=
        if iface.is_flat > 1/2 then (⟨0, 0, 1⟩ : Vec3)
        else normalizeV (subV iface.center pos1)
      (⟨pos1, reflectV w.1.dir normal, w.1.intensity⟩, false)

/-- The value of `lensInterfacesOf nikonLens`, written out: 29
interfaces in reverse prescription order with accumulated axial
positions (established once in `nikonInterfaces_eval` and reused by
the lens-stack theorems). -/
def nikonInterfacesExplicit : List LensInterface := [
  ⟨⟨0, 0, 5⟩, 0, ⟨1, 1, 1⟩, 10, 500, 1, 5, 10⟩,
  ⟨⟨0, 0, 94877/1000⟩, (-25097/500), ⟨90227/50000, 1, 1⟩, 17, 732, 0, 44683/1000, 1/2⟩,
  ⟨⟨0, 0, 79207/1000⟩, (-8131/250), ⟨1, 1, 90227/50000⟩, 17, 487, 0, 46683/1000, 1/2⟩,
  ⟨⟨0, 0, 128337/1000⟩, (-38227/500), ⟨6681/4000, 1, 1⟩, 16, 671, 0, 51883/1000, 1⟩,
  ⟨⟨0, 0, (-1743/500)⟩, 62369/1000, ⟨1, 1, 6681/4000⟩, 16, 487, 0, 58883/1000, 1⟩,
  ⟨⟨0, 0, 54377/500⟩, (-49771/1000), ⟨74891/50000, 1, 1⟩, 76/5, 500, 0, 58983/1000, 1⟩,
  ⟨⟨0, 0, 26043/1000⟩, 1006/25, ⟨93037/50000, 1, 74891/50000⟩, 15, 666, 0, 66283/1000, 1⟩,
  ⟨⟨0, 0, (-392007/1000)⟩, 45969/100, ⟨1, 1, 93037/50000⟩, 15, 533, 0, 67683/1000, 1⟩,
  ⟨⟨0, 0, (-93/500)⟩, 42379/500, ⟨90229/50000, 1, 1⟩, 13, 580, 0, 21143/250, 1/2⟩,
  ⟨⟨0, 0, 56079/1000⟩, 31093/1000, ⟨74891/50000, 1, 90229/50000⟩, 131/10, 540, 0, 21793/250, 4⟩,
  ⟨⟨0, 0, 34859/200⟩, (-85723/1000), ⟨1, 1, 74891/50000⟩, 13, 200, 0, 22143/250, 4⟩,
  ⟨⟨0, 0, (-7577/250)⟩, 6069/50, ⟨948/625, 1, 1⟩, 131/10, 820, 0, 11384/125, 4⟩,
  ⟨⟨0, 0, 155451/1000⟩, (-62929/1000), ⟨38053/20000, 1, 948/625⟩, 13, 770, 0, 46261/500, 1/10⟩,
  ⟨⟨0, 0, 21142/125⟩, (-37207/500), ⟨1, 1, 38053/20000⟩, 13, 500, 0, 47361/500, 1/2⟩,
  ⟨⟨0, 0, 48761/500⟩, 0, ⟨1, 1, 1⟩, 7, 440, 1, 48761/500, 18⟩,
  ⟨⟨0, 0, 6094331/1000⟩, (-5995277/1000), ⟨2121/1250, 1, 1⟩, 18, 300, 0, 49527/500, 1/2⟩,
  ⟨⟨0, 0, 6349/125⟩, 27131/500, ⟨1, 1, 2121/1250⟩, 18, 800, 0, 52527/500, 1/2⟩,
  ⟨⟨0, 0, (-156589/1000)⟩, 261743/1000, ⟨162041/100000, 1, 1⟩, 18, 440, 0, 52577/500, 1/2⟩,
  ⟨⟨0, 0, 318/25⟩, 48017/500, ⟨1, 1, 162041/100000⟩, 18, 700, 0, 54377/500, 1/2⟩,
  ⟨⟨0, 0, 213609/1000⟩, (-12224/125), ⟨90229/50000, 1, 1⟩, 33/2, 730, 0, 115817/1000, 1/2⟩,
  ⟨⟨0, 0, 24163/125⟩, (-75887/1000), ⟨948/625, 1, 90229/50000⟩, 16, 580, 0, 117417/1000, 1/2⟩,
  ⟨⟨0, 0, 88487/1000⟩, 3753/100, ⟨93037/50000, 1, 948/625⟩, 161/10, 411, 0, 126017/1000, 1/2⟩,
  ⟨⟨0, 0, 12843/200⟩, 31701/500, ⟨1, 1, 93037/50000⟩, 161/10, 740, 0, 127617/1000, 1/2⟩,
  ⟨⟨0, 0, 106009/1000⟩, 299/4, ⟨93037/50000, 1, 1⟩, 20, 544, 0, 180759/1000, 1/2⟩,
  ⟨⟨0, 0, 135339/1000⟩, 2491/50, ⟨1, 1, 93037/50000⟩, 20, 330, 0, 185159/1000, 1/2⟩,
  ⟨⟨0, 0, 29253/200⟩, 19947/500, ⟨158913/100000, 1, 1⟩, 131/5, 660, 0, 186159/1000, 27/10⟩,
  ⟨⟨0, 0, 90267/250⟩, (-172809/1000), ⟨1, 1, 158913/100000⟩, 131/5, 570, 0, 188259/1000, 27/10⟩,
  ⟨⟨0, 0, 164259/1000⟩, 37, ⟨1603/1000, 1, 1⟩, 29, 600, 0, 201259/1000, 1/5⟩,
  ⟨⟨0, 0, 32703/250⟩, 72747/1000, ⟨1, 1, 1603/1000⟩, 29, 530, 0, 203559/1000, 1/5⟩]


/-- Concrete flat interface at the origin (test fixture). -/
def flatI0 : LensInterface := ⟨⟨0, 0, 0⟩, 0, ⟨3/2, 1, 1⟩, 1, 0, 1, 0, 0⟩

/-- Concrete flat interface on the axis at `z = 5` (test fixture). -/
def flatI5 : LensInterface := ⟨⟨0, 0, 5⟩, 0, ⟨1, 1, 3/2⟩, 1, 0, 1, 5, 0⟩

/-- Two-interface test stack for the first-bounce reflection claim. -/
def ifacesC4 : List LensInterface := [flatI0, flatI5]

/-- Test ray: off-axis origin, direction along the optical axis. -/
def stC4 : RayState := ⟨⟨1, 0, -1⟩, ⟨0, 0, 1⟩, 1⟩

/-! ## Theorems -/

/-- Helper: sum of a function mapped over `List.range' s m` equals the
corresponding `Finset.range` sum. -/
theorem sum_map_range' (f : ℕ → ℕ) :
    ∀ (m s : ℕ), ((List.range' s m).map f).sum = ∑ i in Finset.range m, f (s + i)
  | 0, _ => by simp
  | m + 1, s => by
    rw [List.range'_succ, List.map_cons, List.sum_cons, sum_map_range' f m (s + 1),
      Finset.sum_range_succ']
    simp only [Nat.add_zero]
    rw [Finset.sum_congr rfl fun i _ => by rw [show s + 1 + i = s + (i + 1) by omega]]
    exact Nat.add_comm _ _

/-- Helper: membership in the enumerator output is exactly the bounce
invariant. -/
theorem mem_ghostList {n : Nat} {g : GhostData} :
    g ∈ ghostList n ↔ 1 ≤ g.bounce2 ∧ g.bounce2 + 2 ≤ g.bounce1 ∧ g.bounce1 < n - 1 := by
  unfold ghostList
  simp only [List.mem_flatMap, List.mem_map, List.mem_range'_1]
  constructor
  · rintro ⟨b2, hb2, b1, hb1, rfl⟩
    dsimp only
    omega
  · intro h
    exact ⟨g.bounce2, by omega, g.bounce1, by omega, rfl⟩

/-- Helper: `Pairwise` carries over a `flatMap` whose outer list is
pairwise `S`-related, whose inner lists are pairwise `R`-related, and
where `S`-related indices give `R`-related elements. -/
theorem pairwise_flatMap {α β : Type} {R : β → β → Prop} {S : α → α → Prop}
    {f : α → List β} :
    ∀ {l : List α}, l.Pairwise S → (∀ a ∈ l, (f a).Pairwise R) →
      (∀ a b, S a b → ∀ x ∈ f a, ∀ y ∈ f b, R x y) →
      (l.flatMap f).Pairwise R := by
  intro l
  induction l with
  | nil => intro _ _ _; simp
  | cons a l ih =>
    intro hp hin hcross
    rw [List.flatMap_cons, List.pairwise_append]
    refine ⟨hin a (by simp), ih (List.Pairwise.of_cons hp)
      (fun b hb => hin b (by simp [hb])) hcross, ?_⟩
    intro x hx y hy
    obtain ⟨b, hb, hyb⟩ := List.mem_flatMap.mp hy
    exact hcross a b (List.rel_of_pairwise_cons hp hb) x hx y hyb

/-- Helper: the enumerator output length is `actualGhostCount`. -/
theorem ghostList_length (n : Nat) : (ghostList n).length = actualGhostCount n := by
  unfold ghostList actualGhostCount
  rw [List.length_flatMap]
  have : ((List.range' 1 (n - 1 - 1)).map
      (List.length ∘ fun b2 => (List.range' (b2 + 2) (n - 1 - (b2 + 2))).map
        fun b1 => (⟨b1, b2⟩ : GhostData))) =
      (List.range' 1 (n - 1 - 1)).map fun b2 => n - 1 - (b2 + 2) := by
    refine List.map_congr_left fun b2 _ => ?_
    simp
  rw [this, sum_map_range', Finset.sum_Ico_eq_sum_range]

/-- C1 (amended): for every interface count `n ≥ 1` the enumerator
emits exactly `Σ_{b2=1}^{N-2} max(0, (N-1)-(b2+2))` ghost records
(`actualGhostCount`, not the claimed `Σ_{b2=1}^{N-3} max(0,(N-2)-(b2+2))`),
every record satisfies `bounce1 ≥ bounce2 + 2` with both indices
strictly interior (`0 < idx < N-1`), and the records are emitted in
nested order: `bounce2` ascending outer, `bounce1` ascending inner.
(`n ≥ 1` keeps the model inside the C++ domain, where the `size_t`
bound `n - 1` does not underflow.) -/
theorem ghost_enumerator_count_invariant_order (n : Nat) (hn : 1 ≤ n) :
    (ghostList n).length = actualGhostCount n ∧
    (∀ g ∈ ghostList n, g.bounce2 + 2 ≤ g.bounce1 ∧
      0 < g.bounce2 ∧ g.bounce2 < n - 1 ∧ 0 < g.bounce1 ∧ g.bounce1 < n - 1) ∧
    (ghostList n).Pairwise ghostBefore := by
  refine ⟨ghostList_length n, ?_, ?_⟩
  · intro g hg
    have h := mem_ghostList.mp hg
    omega
  · unfold ghostList
    refine pairwise_flatMap (S := (· < ·)) (List.pairwise_lt_range' 1 (n - 1 - 1)) ?_ ?_
    · intro b2 _
      rw [List.pairwise_map]
      refine (List.pairwise_lt_range' (b2 + 2) (n - 1 - (b2 + 2))).imp ?_
      intro a b hab
      exact Or.inr ⟨rfl, hab⟩
    · intro a b hab x hx y hy
      obtain ⟨b1, _, rfl⟩ := List.mem_map.mp hx
      obtain ⟨b1', _, rfl⟩ := List.mem_map.mp hy
      exact Or.inl hab

/-- Witness for `ghost_enumerator_count_invariant_order` at `n = 6`. -/
theorem ghost_enumerator_count_invariant_order_witness :
    1 ≤ 6 ∧
    ((ghostList 6).length = actualGhostCount 6 ∧
    (∀ g ∈ ghostList 6, g.bounce2 + 2 ≤ g.bounce1 ∧
      0 < g.bounce2 ∧ g.bounce2 < 6 - 1 ∧ 0 < g.bounce1 ∧ g.bounce1 < 6 - 1) ∧
    (ghostList 6).Pairwise ghostBefore) :=
  ⟨by decide, ghost_enumerator_count_invariant_order 6 (by decide)⟩

/-- C1 counterexample: at `N = 5` the enumerator emits one ghost
(`{bounce1 = 3, bounce2 = 1}`), but the claimed closed form
`Σ_{b2=1}^{N-3} max(0, (N-2)-(b2+2))` evaluates to 0. -/
theorem ghost_count_formula_counterexample :
    (ghostList 5).length = 1 ∧ claimGhostCount 5 = 0 ∧
    (ghostList 5).length ≠ claimGhostCount 5 := by decide

/-- C9: the ray-sphere intersection of the compute shader is
invariant under negating the signed curvature radius: the radius
enters only through `sphereRadius * sphereRadius`. -/
theorem intersectSphere_radius_sign_invariant (o d c : Vec3) (r : ℚ) :
    intersectSphere o d c r = intersectSphere o d c (-r) := by
  simp only [intersectSphere, neg_mul_neg]

/-- C6 counterexample: at equal indices the shader's Schlick formula
does not vanish: `fresnel(0, 1, 1) = 1`, not `0` (with `r0 = 0` the
residual term `(1 - cosTheta)^5` remains). -/
theorem fresnel_equal_indices_counterexample :
    fresnelChecked 0 1 1 = some 1 ∧ fresnelChecked 0 1 1 ≠ some 0 := by
  norm_num [fresnelChecked, divQZ]

/-- C6 (amended): for equal indices (with nonzero index sum, so the
division is defined) `fresnel(cosTheta, n, n) = (1 - cosTheta)^5`,
which is zero exactly when `cosTheta = 1`. -/
theorem fresnel_equal_indices_amended (cosTheta n : ℚ) (h : n + n ≠ 0) :
    fresnelChecked cosTheta n n = some ((1 - cosTheta) ^ 5) ∧
    ((1 - cosTheta) ^ 5 = (0 : ℚ) ↔ cosTheta = 1) := by
  constructor
  · unfold fresnelChecked divQZ
    rw [if_neg h]
    simp only [Option.map_some']
    congr 1
    rw [show n - n = 0 by ring, zero_div]
    ring
  · rw [pow_eq_zero_iff (by norm_num : (5 : ℕ) ≠ 0), sub_eq_zero, eq_comm]

/-- Witness for `fresnel_equal_indices_amended` at `cosTheta = 1/2`,
`n = 1`. -/
theorem fresnel_equal_indices_amended_witness :
    (1 : ℚ) + 1 ≠ 0 ∧
    (fresnelChecked (1/2) 1 1 = some ((1 - 1/2 : ℚ) ^ 5) ∧
      ((1 - 1/2 : ℚ) ^ 5 = (0 : ℚ) ↔ (1/2 : ℚ) = 1)) :=
  ⟨by norm_num, fresnel_equal_indices_amended (1/2) 1 (by norm_num)⟩

/-- C7: the shader's Fresnel has no guard: whenever `n1 + n2 = 0` the
expression `(n1 - n2) / (n1 + n2)` is a division by zero (non-finite
in IEEE arithmetic), so nothing clamps `r0` to 0. -/
theorem fresnel_zero_index_sum_unguarded (cosTheta n1 n2 : ℚ) (h : n1 + n2 = 0) :
    fresnelChecked cosTheta n1 n2 = none := by
  simp [fresnelChecked, divQZ, h]

/-- Witness for `fresnel_zero_index_sum_unguarded` at
`cosTheta = 1, n1 = 1, n2 = -1`. -/
theorem fresnel_zero_index_sum_unguarded_witness :
    (1 : ℚ) + (-1) = 0 ∧ fresnelChecked 1 1 (-1) = none :=
  ⟨by norm_num, fresnel_zero_index_sum_unguarded 1 1 (-1) (by norm_num)⟩

/-- C2: the tracer (writer) flattens with hard-coded grid resolution
16 (`ghost_id * 256 + y * 16 + x`), while the geometry mapper (reader)
flattens with the `patch_tessellation` uniform, which the host sets to
32: already at ghost 1, cell (0,0), the writer writes slot 256 but the
reader reads slot 1024. -/
theorem writer_reader_flatten_mismatch :
    writerVertexIdx 1 0 0 = 256 ∧ readerVertexIdx patch_tessellation 1 0 0 = 1024 ∧
    writerVertexIdx 1 0 0 ≠ readerVertexIdx patch_tessellation 1 0 0 := by decide

/-- C3: for every ghost the enumerator produces (`bounce1 ≥ bounce2+2`),
the phase-2 loop `for (i = bounce1; i < bounce2 && i < count; ++i)`
performs zero iterations, so no second walk, reflection, or Fresnel
multiplication ever happens; the ray state passes through unchanged. -/
theorem phase2_loop_never_executes {n : Nat} (ifaces : List LensInterface)
    (g : GhostData) (hg : g ∈ ghostList n) (st : RayState) :
    phase2 ifaces g.bounce1 g.bounce2 st = (st, false) := by
  have h := (mem_ghostList.mp hg).2.1
  unfold phase2
  rw [show min g.bounce2 ifaces.length - g.bounce1 = 0 by omega]
  rfl

/-- Witness for `phase2_loop_never_executes`: the single ghost of a
5-interface stack, `{bounce1 = 3, bounce2 = 1}`. -/
theorem phase2_loop_never_executes_witness :
    ((⟨3, 1⟩ : GhostData) ∈ ghostList 5) ∧
    phase2 [] 3 1 stC4 = (stC4, false) :=
  ⟨by decide, @phase2_loop_never_executes 5 [] ⟨3, 1⟩ (by decide) stC4⟩

set_option maxHeartbeats 2000000 in
/-- Helper: the lens-stack builder evaluated on the Nikon
prescription. -/
theorem nikonInterfaces_eval : nikonInterfaces = nikonInterfacesExplicit := by
  norm_num [nikonInterfaces, lensInterfacesOf, nikonLens, buildStep, List.range_succ,
    pfDefault, nikonInterfacesExplicit]

/-- C5 counterexample: in the array the builder produces, adjacent
interfaces do *not* chain as "exit of `i` = incident of `i+1`":
already at positions 0 and 1, interface 0's exit index is 1.0 while
interface 1's incident index is 1.80454 (the reverse walk leaves each
entry's incident/exit sides unswapped, so the chain runs the other
way). -/
theorem lens_chain_direction_counterexample :
    ¬ ((nikonInterfaces.getD 0 ifaceDefault).n.z =
        (nikonInterfaces.getD 1 ifaceDefault).n.x) := by
  rw [nikonInterfaces_eval]
  norm_num [nikonInterfacesExplicit, ifaceDefault]

set_option maxHeartbeats 1000000 in
/-- C5 (amended): the built Nikon interface array is strictly ordered
by axial position; adjacent interfaces chain in the reversed sense —
interface `i`'s *incident*-side index equals interface `i+1`'s
*exit*-side index — and at both array boundaries the outer side is
vacuum: the last interface's incident index and the first interface's
exit index are 1.0. -/
theorem lens_stack_invariants_amended :
    List.Chain' (fun a b => a.pos < b.pos) nikonInterfaces ∧
    List.Chain' (fun a b => a.n.x = b.n.z) nikonInterfaces ∧
    (nikonInterfaces.getD (nikonInterfaces.length - 1) ifaceDefault).n.x = 1 ∧
    (nikonInterfaces.getD 0 ifaceDefault).n.z = 1 := by
  rw [nikonInterfaces_eval]
  refine ⟨?_, ?_, ?_, ?_⟩ <;>
    norm_num [nikonInterfacesExplicit, List.chain'_cons, ifaceDefault]

/-- Helper: a phase-1 walk with `fuel + 1` iterations is a pure
transmission walk over the first `fuel` interfaces followed — when no
miss broke the walk — by the bounce iteration at interface
`i + fuel`, i.e. at index `bounce - 1`. -/
theorem traceLoop_reflect_last (ifaces : List LensInterface) :
    ∀ (fuel i : Nat) (st : RayState),
      traceLoop ifaces (i + fuel + 1) i (fuel + 1) st =
        (if (transmitWalk ifaces i fuel st).2 then transmitWalk ifaces i fuel st
         else reflectAt (ifaces.getD (i + fuel) ifaceDefault)
           (transmitWalk ifaces i fuel st).1)
  | 0, i, st => by
    rcases h : intersectIface (ifaces.getD i ifaceDefault) st.pos st.dir with _ | t
    · simp [traceLoop, transmitWalk, reflectAt, h]
    · simp [traceLoop, transmitWalk, reflectAt, h]
  | fuel + 1, i, st => by
    have hne : ¬ (i + 1 = i + (fuel + 1) + 1) := by omega
    rw [traceLoop.eq_2, transmitWalk.eq_2]
    rcases h : intersectIface (ifaces.getD i ifaceDefault) st.pos st.dir with _ | t
    · simp only [h]
      simp
    · simp only [h, if_neg hne]
      have ih := traceLoop_reflect_last ifaces fuel (i + 1)
        ⟨addV st.pos (smulV t st.dir), st.dir, st.intensity⟩
      rw [show i + (fuel + 1) + 1 = i + 1 + fuel + 1 by omega, ih,
        show i + 1 + fuel = i + (fuel + 1) by omega]

/-- C4 (amended): for `1 ≤ bounce1 ≤ interface count`, phase 1
transmits through interfaces `0 .. bounce1-2` and applies its single
reflection at interface `bounce1 - 1` — not at index `bounce1` — and
`reflectAt` uses the normal `normalize(hitPoint - center)` for flat
and spherical surfaces alike (no axis-aligned special case; negating
the normal, as in "hit point to center", leaves `reflect`
unchanged). -/
theorem first_bounce_reflection_amended (ifaces : List LensInterface) (b1 : Nat)
    (st : RayState) (h1 : 1 ≤ b1) (h2 : b1 ≤ ifaces.length) :
    phase1 ifaces b1 st =
      (if (transmitWalk ifaces 0 (b1 - 1) st).2 then transmitWalk ifaces 0 (b1 - 1) st
       else reflectAt (ifaces.getD (b1 - 1) ifaceDefault)
         (transmitWalk ifaces 0 (b1 - 1) st).1) := by
  obtain ⟨m, rfl⟩ : ∃ m, b1 = m + 1 := ⟨b1 - 1, by omega⟩
  unfold phase1
  rw [show min (m + 1) ifaces.length = m + 1 by omega]
  have h := traceLoop_reflect_last ifaces m 0 st
  simpa using h

/-- Witness for `first_bounce_reflection_amended` on the concrete
two-interface flat stack. -/
theorem first_bounce_reflection_amended_witness :
    1 ≤ 1 ∧
    phase1 ifacesC4 1 stC4 =
      (if (transmitWalk ifacesC4 0 (1 - 1) stC4).2 then transmitWalk ifacesC4 0 (1 - 1) stC4
       else reflectAt (ifacesC4.getD (1 - 1) ifaceDefault)
         (transmitWalk ifacesC4 0 (1 - 1) stC4).1) :=
  ⟨by omega, first_bounce_reflection_amended ifacesC4 1 stC4 (by omega) (by decide)⟩

/-- C4 counterexample: on a stack of two flat interfaces with
`bounce1 = 1` and the ray `stC4`, the shader leaves the direction at
`(0,0,1)` (it reflects at interface 0 about the radial normal
`(1,0,0)`), while the claim — reflection at interface
`firstBounce = 1` about the axis-aligned normal `(0,0,1)` for flat
surfaces, as modelled by `phase1SpecC4` — would give `(0,0,-1)`. -/
theorem first_bounce_reflection_counterexample :
    (phase1 ifacesC4 1 stC4).1.dir = ⟨0, 0, 1⟩ ∧
    (phase1SpecC4 ifacesC4 1 stC4).1.dir = ⟨0, 0, -1⟩ ∧
    phase1 ifacesC4 1 stC4 ≠ phase1SpecC4 ifacesC4 1 stC4 := by
  norm_num [phase1, phase1SpecC4, traceLoop, transmitWalk, intersectIface, intersectPlane,
    intersectSphere, normalizeV, ratSqrt, reflectV, fresnelQ, addV, subV, smulV, dotV,
    ifacesC4, flatI0, flatI5, stC4, ifaceDefault, Vec3.mk.injEq, RayState.mk.injEq,
    Prod.ext_iff]

/-- C8: (writer) whenever the computed flat index is at or beyond the
buffer length the tracer performs no write at all, and (reader)
whenever the mapper's computed source index falls outside the buffer
it emits the degenerate sentinel vertex — position `(0,0,-10,1)`,
which lies outside the clip volume (`-1 ≤ z/w ≤ 1` fails), with
intensity 0 and zero aperture coordinate — instead of reading. -/
theorem out_of_range_write_and_read_guards :
    (∀ (ifaces : List LensInterface) (ghosts : List GhostData) (bufLen : Nat)
        (light : Vec3) (bb : Vec2) (tx ty : Nat),
      bufLen ≤ writerVertexIdx (tx / 16) ty (tx % 16) →
      mainCompute ifaces ghosts bufLen light bb tx ty = none) ∧
    (∀ (vd : List Vec4) (g p vid : Nat),
      vd.length ≤ readerVertexIdx p g (cellY p vid) (cellX p vid) →
      ghostVertexShader vd g p vid = ⟨⟨0, 0, -10, 1⟩, 0, ⟨0, 0⟩⟩) := by
  constructor
  · intro ifaces ghosts bufLen light bb tx ty h
    simp only [mainCompute]
    split_ifs with h1 h2 h3 h4
    · rfl
    · rfl
    · rfl
    · omega
    · rfl
  · intro vd g p vid h
    simp only [ghostVertexShader]
    rw [if_pos h]

/-- Witness for `out_of_range_write_and_read_guards`: a zero-length
buffer discards the writer's slot 0, and an empty vertex buffer makes
the reader emit the sentinel. -/
theorem out_of_range_write_and_read_guards_witness :
    (0 : Nat) ≤ writerVertexIdx (0 / 16) 0 (0 % 16) ∧
    mainCompute [flatI0] [⟨0, 0⟩] 0 ⟨0, 0, 1⟩ ⟨1, 1⟩ 0 0 = none ∧
    ([] : List Vec4).length ≤ readerVertexIdx 2 0 (cellY 2 0) (cellX 2 0) ∧
    ghostVertexShader [] 0 2 0 = ⟨⟨0, 0, -10, 1⟩, 0, ⟨0, 0⟩⟩ :=
  ⟨by omega,
   out_of_range_write_and_read_guards.1 [flatI0] [⟨0, 0⟩] 0 ⟨0, 0, 1⟩ ⟨1, 1⟩ 0 0 (by omega),
   by decide,
   out_of_range_write_and_read_guards.2 [] 0 2 0 (by decide)⟩

/-- Helper: once intensity is zero it stays zero through a walk loop
(a dead ray's later Fresnel multiplications keep `0`). -/
theorem traceLoop_zero_intensity (ifaces : List LensInterface) (bounce : Nat) :
    ∀ (fuel i : Nat) (st : RayState), st.intensity = 0 →
      ((traceLoop ifaces bounce i fuel st).1).intensity = 0
  | 0, _, _ => fun h => h
  | fuel + 1, i, st => fun h => by
    rw [traceLoop.eq_2]
    rcases hi : intersectIface (ifaces.getD i ifaceDefault) st.pos st.dir with _ | t
    · simp only [hi]
    · simp only [hi]
      split_ifs with hb
      · exact traceLoop_zero_intensity ifaces bounce fuel (i + 1) _ (by simp [h])
      · exact traceLoop_zero_intensity ifaces bounce fuel (i + 1) _ h

/-- Helper: a walk loop that exits through its miss `break` leaves
intensity zero. -/
theorem traceLoop_broke_intensity (ifaces : List LensInterface) (bounce : Nat) :
    ∀ (fuel i : Nat) (st : RayState),
      (traceLoop ifaces bounce i fuel st).2 = true →
      ((traceLoop ifaces bounce i fuel st).1).intensity = 0
  | 0, i, st => by
    intro h
    simp [traceLoop] at h
  | fuel + 1, i, st => by
    rw [traceLoop.eq_2]
    rcases hi : intersectIface (ifaces.getD i ifaceDefault) st.pos st.dir with _ | t
    · intro _
      simp only [hi]
    · simp only [hi]
      split_ifs with hb
      · exact traceLoop_broke_intensity ifaces bounce fuel (i + 1) _
      · exact traceLoop_broke_intensity ifaces bounce fuel (i + 1) _

/-- Helper: a dead ray (miss in either phase) ends the trace with
intensity zero. -/
theorem traceGhost_dead_intensity (ifaces : List LensInterface) (b1 b2 : Nat)
    (st : RayState) (h : (traceGhost ifaces b1 b2 st).2 = true) :
    ((traceGhost ifaces b1 b2 st).1).intensity = 0 := by
  unfold traceGhost phase1 phase2 at h ⊢
  rcases (Bool.or_eq_true _ _).mp h with h1 | h2
  · exact traceLoop_zero_intensity ifaces b2 _ b1 _
      (traceLoop_broke_intensity ifaces b1 _ 0 _ h1)
  · exact traceLoop_broke_intensity ifaces b2 _ b1 _ h2

/-- C10 (amended): every invocation with a valid ghost id, bounce
indices inside the interface stack, grid row `ty < 16` (the patch
height the shader actually accepts), and in-buffer flat index writes
exactly one record, at its own slot `ghost · 256 + y · 16 + x`, with
reserved component 1.0; a dead ray (miss in either phase) still
writes, with intensity 0. -/
theorem unit_writes_own_slot (ifaces : List LensInterface) (ghosts : List GhostData)
    (bufLen : Nat) (light : Vec3) (bb : Vec2) (tx ty : Nat)
    (hg : tx / 16 < ghosts.length)
    (hb1 : (ghosts.getD (tx / 16) ⟨0, 0⟩).bounce1 < ifaces.length)
    (hb2 : (ghosts.getD (tx / 16) ⟨0, 0⟩).bounce2 < ifaces.length)
    (hy : ty < 16)
    (hidx : writerVertexIdx (tx / 16) ty (tx % 16) < bufLen) :
    ∃ v : Vec4,
      mainCompute ifaces ghosts bufLen light bb tx ty =
        some (writerVertexIdx (tx / 16) ty (tx % 16), v) ∧
      v.w = 1 ∧
      v.z = ((traceGhost ifaces (ghosts.getD (tx / 16) ⟨0, 0⟩).bounce1
          (ghosts.getD (tx / 16) ⟨0, 0⟩).bounce2 (rayStart light (tx % 16) ty)).1).intensity ∧
      ((traceGhost ifaces (ghosts.getD (tx / 16) ⟨0, 0⟩).bounce1
          (ghosts.getD (tx / 16) ⟨0, 0⟩).bounce2 (rayStart light (tx % 16) ty)).2 = true →
        v.z = 0) := by
  have hx : tx % 16 < 16 := Nat.mod_lt _ (by omega)
  simp only [mainCompute]
  rw [if_neg (by omega), if_neg (by omega), if_neg (by omega), if_pos hidx]
  exact ⟨_, rfl, rfl, rfl, fun hd => traceGhost_dead_intensity ifaces _ _ _ hd⟩

/-- Witness for `unit_writes_own_slot`: invocation (0,0) on a
one-ghost, one-interface system with buffer length 1. -/
theorem unit_writes_own_slot_witness :
    0 / 16 < ([(⟨0, 0⟩ : GhostData)] : List GhostData).length ∧
    (∃ v : Vec4,
      mainCompute [flatI0] [⟨0, 0⟩] 1 ⟨0, 0, 1⟩ ⟨1, 1⟩ 0 0 =
        some (writerVertexIdx (0 / 16) 0 (0 % 16), v) ∧
      v.w = 1 ∧
      v.z = ((traceGhost [flatI0]
          (([(⟨0, 0⟩ : GhostData)] : List GhostData).getD (0 / 16) ⟨0, 0⟩).bounce1
          (([(⟨0, 0⟩ : GhostData)] : List GhostData).getD (0 / 16) ⟨0, 0⟩).bounce2
          (rayStart ⟨0, 0, 1⟩ (0 % 16) 0)).1).intensity ∧
      (((traceGhost [flatI0]
          (([(⟨0, 0⟩ : GhostData)] : List GhostData).getD (0 / 16) ⟨0, 0⟩).bounce1
          (([(⟨0, 0⟩ : GhostData)] : List GhostData).getD (0 / 16) ⟨0, 0⟩).bounce2
          (rayStart ⟨0, 0, 1⟩ (0 % 16) 0)).2 = true) →
        v.z = 0)) :=
  ⟨by decide, unit_writes_own_slot [flatI0] [⟨0, 0⟩] 1 ⟨0, 0, 1⟩ ⟨1, 1⟩ 0 0
    (by decide) (by decide) (by decide) (by decide) (by decide)⟩

/-- C10 counterexample: the invocation `(tx, ty) = (0, 16)` — real
under the host dispatch, which launches 32 rows — has a valid ghost
id, in-range bounce indices and an in-buffer flat index, yet the
shader's `local_y >= 16` guard makes it return without writing. -/
theorem unit_local_row_16_skipped :
    mainCompute [flatI0] [⟨0, 0⟩] 10000 ⟨0, 0, 1⟩ ⟨1, 1⟩ 0 16 = none ∧
    0 / 16 < ([(⟨0, 0⟩ : GhostData)] : List GhostData).length ∧
    (([(⟨0, 0⟩ : GhostData)] : List GhostData).getD (0 / 16) ⟨0, 0⟩).bounce1 <
      ([flatI0] : List LensInterface).length ∧
    (([(⟨0, 0⟩ : GhostData)] : List GhostData).getD (0 / 16) ⟨0, 0⟩).bounce2 <
      ([flatI0] : List LensInterface).length ∧
    writerVertexIdx (0 / 16) 16 (0 % 16) < 10000 := by
  refine ⟨?_, by decide, by decide, by decide, by decide⟩
  simp only [mainCompute]
  norm_num
